import Mathlib

/-!
Verification of the ticket multi-agent system: a shallow embedding of the
orchestration and tool-dispatch code of the Python sources, with theorems
about its routing, ticket processing, tool scoping and webhook behaviour.

Conventions of the embedding:
* Python strings are Lean `String`s; `str.lower()` is `pyLower` (the ticket
  data is ASCII, where `Char.toLower` agrees with Python).
* The CSV ticket store is a `List Ticket` of its parsed records.
* Fallible external calls (the LLM round-trip, `json.loads`, the MCP
  `call_tool` transport, the outbound HTTP POST) are passed in as explicit
  outcome values or outcome functions, and the code under analysis is the
  pure function of those outcomes that the Python control flow defines.
* A Python method that can raise to its caller is embedded with result
  type `Except String α`, where `.error` is a propagated exception.
-/

namespace TicketSystem

/-- Python `str.lower()` on the ASCII data handled by the plugins. -/
def pyLower (s : String) : String := String.mk (s.data.map Char.toLower)

/-- Python `str.strip()` restricted to the common whitespace characters. -/
def pyStrip (s : String) : String :=
  String.mk (((s.data.dropWhile Char.isWhitespace).reverse.dropWhile Char.isWhitespace).reverse)

/-- Python `str.find(c)`: index of the first occurrence, `-1` when absent. -/
def pyFind (s : String) (c : Char) : Int :=
  match s.data.findIdx? (· == c) with
  | some i => (i : Int)
  | none => -1

/-- Python `str.rfind(c)`: index of the last occurrence, `-1` when absent. -/
def pyRfind (s : String) (c : Char) : Int :=
  match s.data.reverse.findIdx? (· == c) with
  | some i => ((s.data.length - 1 - i : Nat) : Int)
  | none => -1

/-- Python slice `s[a:b]` for the in-range case `0 ≤ a ≤ b` used here. -/
def pySlice (s : String) (a b : Int) : String :=
  String.mk ((s.data.drop a.toNat).take (b - a).toNat)

/-! ## Ticket store (data/tickets.csv records) -/

/-- One CSV record, with the columns used by `TicketSearchPlugin` and
`TicketProcessorPlugin` (fieldnames `ticket_number, status, body, owner`). -/
structure Ticket where
  ticket_number : String
  status : String
  body : String
  owner : String
deriving DecidableEq, Repr

/-- The match test of both plugins:
`row["ticket_number"].lower() == ticket_number.lower()`. -/
def ticketMatches (tn : String) (t : Ticket) : Bool :=
  pyLower t.ticket_number == pyLower tn

/-- The processor status test: `ticket["status"].lower() == "pending"`. -/
def statusIsPending (t : Ticket) : Bool :=
  pyLower t.status == "pending"

/-! ## TicketProcessorPlugin.process_pending_ticket -/

/-- The refusal returned when the matched ticket is not pending
(ticket_processor_plugin.py line 52). -/
def refusalMessage (tn st : String) : String :=
  "⚠️ Ticket " ++ tn ++ " não pode ser processado. Status atual: " ++ st ++
    ". Apenas tickets \x27pending\x27 podem ser processados."

/-- The not-found message (ticket_processor_plugin.py line 56). -/
def notFoundMessage (tn : String) : String :=
  "❌ Ticket " ++ tn ++ " não encontrado."

/-- The success message (ticket_processor_plugin.py line 74). -/
def processedMessage (tn : String) : String :=
  "✅ Ticket " ++ tn ++ " processado com sucesso! Status alterado para \x27solved\x27."

/-- The `for ticket in tickets` loop of `process_pending_ticket`
(lines 41-52): every ticket whose number matches case-insensitively and is
pending gets `status = "solved"`; the first matching ticket that is not
pending triggers the early `return`, carried here as `.error` holding its
current status. The booleans are `ticket_found` and `ticket_was_pending`
at loop exit. -/
def processLoop (tn : String) : List Ticket → Except String (List Ticket × Bool × Bool)
  | [] => .ok ([], false, false)
  | t :: ts =>
    if ticketMatches tn t then
      if statusIsPending t then
        match processLoop tn ts with
        | .error st => .error st
        | .ok (ts2, _, _) => .ok ({ t with status := "solved" } :: ts2, true, true)
      else
        .error t.status
    else
      match processLoop tn ts with
      | .error st => .error st
      | .ok (ts2, found, wasPending) => .ok (t :: ts2, found, wasPending)

/-- Result of one `process_pending_ticket` call: the returned text
(`none` models the Python function falling off the end and returning
`None`), the ticket store after the call, and how many timestamped backup
copies of the prior file were created. -/
structure ProcessOutcome where
  message : Option String
  store : List Ticket
  backupsCreated : Nat
deriving DecidableEq, Repr

/-- `TicketProcessorPlugin.process_pending_ticket` (lines 20-74) on an
in-memory store: run the loop; a refusal or a not-found result leaves the
file untouched and makes no backup; only the `ticket_was_pending` path
creates one backup of the prior file and overwrites the CSV with the
mutated record list. -/
def process_pending_ticket (tn : String) (store : List Ticket) : ProcessOutcome :=
  match processLoop tn store with
  | .error st => ⟨some (refusalMessage tn st), store, 0⟩
  | .ok (newStore, found, wasPending) =>
    if !found then ⟨some (notFoundMessage tn), store, 0⟩
    else if wasPending then ⟨some (processedMessage tn), newStore, 1⟩
    else ⟨none, store, 0⟩

/-! ## TicketSearchPlugin.search_ticket -/

/-- The formatted hit of `search_ticket` (lines 32-39). -/
def searchFoundMessage (t : Ticket) : String :=
  "\n🎫 **Ticket Encontrado**\n━━━━━━━━━━━━━━━━━━━━\n📌 Número: " ++ t.ticket_number ++
    "\n📊 Status: " ++ t.status ++ "\n👤 Responsável: " ++ t.owner ++
    "\n📝 Descrição: " ++ t.body ++ "\n"

/-- The miss message of `search_ticket` (line 43). -/
def searchNotFoundMessage (tn : String) : String :=
  "❌ Ticket " ++ tn ++ " não encontrado no sistema."

/-- The `for row in reader` scan of `search_ticket` (lines 29-40): the
first case-insensitive match wins. -/
def findTicket (tn : String) (store : List Ticket) : Option Ticket :=
  store.find? (ticketMatches tn)

/-- `TicketSearchPlugin.search_ticket` (lines 19-43) on an in-memory store. -/
def search_ticket (tn : String) (store : List Ticket) : String :=
  match findTicket tn store with
  | some t => searchFoundMessage t
  | none => searchNotFoundMessage tn

/-! ## JSON values (results of json.loads) -/

/-- A decoded JSON value, as produced by `json.loads`. -/
inductive JValue where
  | jnull
  | jbool (b : Bool)
  | jnum (n : Int)
  | jstr (s : String)
  | jarr (elems : List JValue)
  | jobj (fields : List (String × JValue))

/-- Python subscript `d[k]` / `d.get(k)` on a decoded value: `none` models
a `KeyError` or a `TypeError` (subscripting a non-dict), and the `None`
result of `.get` on a missing key. -/
def jlookup (j : JValue) (k : String) : Option JValue :=
  match j with
  | .jobj fields => (fields.find? (fun p => p.1 == k)).map (fun p => p.2)
  | _ => none

/-- Python truthiness of an optional decoded value (`None`, `False`, `0`,
empty string, empty list and empty dict are falsy). -/
def pyTruthy : Option JValue → Bool
  | none => false
  | some .jnull => false
  | some (.jbool b) => b
  | some (.jnum n) => n != 0
  | some (.jstr s) => !(s == "")
  | some (.jarr xs) => !xs.isEmpty
  | some (.jobj fs) => !fs.isEmpty

/-! ## OrchestratorAgent.route_request -/

/-- What the routing LLM round-trip produced: an exception while calling
the LLM, an empty result list, or one reply message text. -/
inductive LLMRouteResult where
  | failure
  | empty
  | reply (text : String)

/-- Lines 125-128 of orchestrator.py: whether the reply holds a brace
region, i.e. `json_start != -1 and json_end > json_start` with
`json_start = text.find(chr(123))` and `json_end = text.rfind(chr(125)) + 1`. -/
def hasJsonRegion (s : String) : Bool :=
  pyFind s '\x7b' != -1 && decide (pyRfind s '\x7d' + 1 > pyFind s '\x7b')

/-- Line 129 of orchestrator.py: `response_text[json_start:json_end]`. -/
def extractJsonRegion (s : String) : String :=
  pySlice s (pyFind s '\x7b') (pyRfind s '\x7d' + 1)

/-- One of the three fallback routing decisions of orchestrator.py
(lines 144-149, 153-158, 161-166); they differ only in the reasoning. -/
def fallbackPlan (reason : String) : JValue :=
  .jobj [("primary_agent", .jstr "SearchAgent"),
         ("reasoning", .jstr reason),
         ("requires_multiple_agents", .jbool false),
         ("agent_sequence", .jarr [.jstr "SearchAgent"])]

/-- `OrchestratorAgent.route_request` (lines 92-166) as a function of the
LLM outcome and of the external `json.loads` (`loads`; `.error` is a
`JSONDecodeError`).  An exception during the LLM call lands in the generic
handler; an empty result falls through to the line-144 fallback; a reply
is stripped, the brace region is extracted (its absence raises
`ValueError`, caught by the generic handler), parsed (`JSONDecodeError`
has its own handler), logged — where the subscripts `primary_agent`,
`reasoning` and, when `requires_multiple_agents` is truthy,
`agent_sequence` can raise `KeyError`/`TypeError` into the generic
handler — and the decoded decision is returned as is. -/
def route_request (loads : String → Except Unit JValue) (r : LLMRouteResult) : JValue :=
  match r with
  | .failure => fallbackPlan "Fallback devido a erro"
  | .empty => fallbackPlan "Fallback devido a erro na análise"
  | .reply text =>
    let response_text := pyStrip text
    if hasJsonRegion response_text then
      match loads (extractJsonRegion response_text) with
      | .error _ => fallbackPlan "Fallback devido a erro de parsing"
      | .ok routing_decision =>
        match jlookup routing_decision "primary_agent",
              jlookup routing_decision "reasoning" with
        | some _, some _ =>
          if pyTruthy (jlookup routing_decision "requires_multiple_agents") then
            match jlookup routing_decision "agent_sequence" with
            | some _ => routing_decision
            | none => fallbackPlan "Fallback devido a erro"
          else routing_decision
        | _, _ => fallbackPlan "Fallback devido a erro"
    else fallbackPlan "Fallback devido a erro"

/-- The fixed default plan of the spec: primary SearchAgent, single step,
sequence exactly `[SearchAgent]`. -/
def isDefaultPlan (j : JValue) : Bool :=
  match jlookup j "primary_agent", jlookup j "requires_multiple_agents",
        jlookup j "agent_sequence" with
  | some (.jstr p), some (.jbool m), some (.jarr [.jstr a]) =>
    p == "SearchAgent" && m == false && a == "SearchAgent"
  | _, _, _ => false

/-- The RoutingPlan invariant of the spec: `agent_sequence` is a non-empty
list, and when `requires_multiple_agents` is falsy it is exactly the
one-element list holding `primary_agent`. -/
def planInvariant (j : JValue) : Bool :=
  match jlookup j "agent_sequence", jlookup j "primary_agent" with
  | some (.jarr seq), some (.jstr p) =>
    !seq.isEmpty &&
    (pyTruthy (jlookup j "requires_multiple_agents") ||
      (match seq with
       | [.jstr q] => q == p
       | _ => false))
  | _, _ => false

/-! ## Agent executors and their tool scoping -/

/-- The closed set of handler identities. -/
inductive HandlerId where
  | search
  | process
  | notify
  | dataMutation
deriving DecidableEq, Repr

/-- search_agent.py lines 52-54: `included_plugins` of the Auto filter. -/
def searchAgentIncludedPlugins : List String := ["TicketSearch"]

/-- processor_agent.py lines 56-58. -/
def processorAgentIncludedPlugins : List String := ["TicketProcessor"]

/-- webhook_agent.py lines 52-54. -/
def webhookAgentIncludedPlugins : List String := ["TicketWebhookMCP"]

/-- llm_insert_agent.py lines 104-106. -/
def llmInsertAgentIncludedPlugins : List String := ["DatabaseExecutor"]

/-- The plugin filter each executor passes to `FunctionChoiceBehavior.Auto`. -/
def includedPlugins : HandlerId → List String
  | .search => searchAgentIncludedPlugins
  | .process => processorAgentIncludedPlugins
  | .notify => webhookAgentIncludedPlugins
  | .dataMutation => llmInsertAgentIncludedPlugins

/-- The full tool catalog as (plugin name, function name) pairs: the
`kernel_function` registrations of the four plugins, under the plugin
names used at registration (main.py lines 81-97 and the
`DatabaseExecutor` filter of llm_insert_agent.py). -/
def toolCatalog : List (String × String) :=
  [("TicketSearch", "search_ticket"),
   ("TicketSearch", "list_all_tickets"),
   ("TicketProcessor", "process_pending_ticket"),
   ("TicketProcessor", "list_pending_tickets"),
   ("TicketWebhookMCP", "send_ticket_webhook"),
   ("TicketWebhookMCP", "send_custom_ticket_webhook"),
   ("TicketWebhookMCP", "check_webhook_health"),
   ("DatabaseExecutor", "execute_sql"),
   ("DatabaseExecutor", "execute_query"),
   ("DatabaseExecutor", "check_table_exists")]

/-- The tools an executor exposes to its LLM call: the catalog restricted
by its `included_plugins` filter. -/
def allowedTools (h : HandlerId) : List (String × String) :=
  toolCatalog.filter (fun t => (includedPlugins h).contains t.1)

/-- The four handlers, for a closed pairwise-disjointness statement. -/
def handlerIds : List HandlerId :=
  [.search, .process, .notify, .dataMutation]

/-- What one executor LLM round-trip produced: a raised exception
(message text), an empty result list, or one final reply. -/
inductive AgentCallResult where
  | exn (msg : String)
  | empty
  | reply (text : String)

/-- `SearchAgentExecutor.execute` (search_agent.py lines 20-71): no
try/except, so an exception from the LLM call propagates (`.error`). -/
def searchAgentExecute (r : AgentCallResult) : Except String String :=
  match r with
  | .exn msg => .error msg
  | .reply t => .ok t
  | .empty => .ok "❌ Não foi possível buscar as informações solicitadas."

/-- `ProcessorAgentExecutor.execute` (processor_agent.py lines 20-74). -/
def processorAgentExecute (r : AgentCallResult) : Except String String :=
  match r with
  | .exn msg => .error msg
  | .reply t => .ok t
  | .empty => .ok "❌ Não foi possível processar o ticket."

/-- `WebhookAgentExecutor.execute` (webhook_agent.py lines 20-70). -/
def webhookAgentExecute (r : AgentCallResult) : Except String String :=
  match r with
  | .exn msg => .error msg
  | .reply t => .ok t
  | .empty => .ok "❌ Não foi possível enviar o webhook."

/-- `LLMInsertAgentExecutor.execute` (llm_insert_agent.py lines 25-140):
the LLM call sits in a try/except whose handler returns the error-marked
failure string of line 140. -/
def llmInsertAgentExecute (r : AgentCallResult) : Except String String :=
  match r with
  | .exn msg => .ok ("❌ Erro ao processar: " ++ msg)
  | .reply t => .ok t
  | .empty => .ok "❌ Nenhuma resposta gerada"

/-! ## MCPTicketClient (mserver/mcp_client.py) -/

/-- The client state the tool methods consult: `session` is `None`
(Disconnected) or a live session (Connected). -/
structure MCPTicketClient where
  session : Option Unit
deriving DecidableEq, Repr

/-- What one `session.call_tool` round-trip produced: an
`asyncio.TimeoutError`, another exception, or a result whose
`content` texts are listed. -/
inductive ToolCallOutcome where
  | timeout
  | exn (msg : String)
  | ok (texts : List String)

/-- Result of one client tool method: the returned text, whether
`session.call_tool` was invoked at all (network I/O attempted), and the
client state afterwards. -/
structure MCPCallResult where
  message : String
  attemptedCall : Bool
  client : MCPTicketClient
deriving DecidableEq, Repr

/-- `MCPTicketClient.send_ticket_webhook` (mcp_client.py lines 140-175):
refuse immediately when `session` is `None`; otherwise call the
`send_ticket_notification` tool with a 15s timeout, returning the first
content text, a fixed note when the content is empty, and caught
timeout/exception failure texts.  `self.session` is never reassigned. -/
def send_ticket_webhook (c : MCPTicketClient) (tn : String)
    (o : ToolCallOutcome) : MCPCallResult :=
  match c.session with
  | none =>
    ⟨"❌ Erro: Cliente MCP não está conectado. Por favor, reinicie o sistema.", false, c⟩
  | some _ =>
    match o with
    | .timeout => ⟨"❌ Timeout ao enviar webhook para " ++ tn, true, c⟩
    | .exn msg => ⟨"❌ Erro ao enviar webhook via MCP: " ++ msg, true, c⟩
    | .ok texts =>
      match texts with
      | t :: _ => ⟨t, true, c⟩
      | [] => ⟨"✅ Webhook enviado para " ++ tn ++ " (sem resposta detalhada do servidor)", true, c⟩

/-- Lines 196-201 of mcp_client.py: parse the metadata argument with
`json.loads` unless it is empty or the literal default. -/
def parseMetadata (loads : String → Except Unit JValue) (metadata : String) :
    Except Unit JValue :=
  if !(metadata == "") && !(metadata == "\x7b\x7d") then loads metadata
  else .ok (.jobj [])

/-- `MCPTicketClient.send_custom_webhook`, registered as the
`send_custom_ticket_webhook` tool (mcp_client.py lines 181-226): refuse
when disconnected, reject unparsable metadata before any call, then call
the `send_custom_webhook` tool with a 15s timeout. -/
def send_custom_ticket_webhook (loads : String → Except Unit JValue)
    (c : MCPTicketClient) (tn status metadata : String)
    (o : ToolCallOutcome) : MCPCallResult :=
  match c.session with
  | none => ⟨"❌ Erro: Cliente MCP não está conectado", false, c⟩
  | some _ =>
    match parseMetadata loads metadata with
    | .error _ => ⟨"❌ Erro: metadata deve ser um JSON válido", false, c⟩
    | .ok _ =>
      match o with
      | .timeout => ⟨"❌ Timeout ao enviar webhook customizado", true, c⟩
      | .exn msg => ⟨"❌ Erro ao enviar webhook customizado via MCP: " ++ msg, true, c⟩
      | .ok texts =>
        match texts with
        | t :: _ => ⟨t, true, c⟩
        | [] => ⟨"✅ Webhook customizado enviado para " ++ tn, true, c⟩

/-- `MCPTicketClient.check_webhook_health` (mcp_client.py lines 232-257):
refuse when disconnected, else call the `check_webhook_status` tool with a
10s timeout. -/
def check_webhook_health (c : MCPTicketClient) (o : ToolCallOutcome) : MCPCallResult :=
  match c.session with
  | none => ⟨"❌ Erro: Cliente MCP não está conectado", false, c⟩
  | some _ =>
    match o with
    | .timeout => ⟨"❌ Timeout ao verificar webhook", true, c⟩
    | .exn msg => ⟨"❌ Erro ao verificar webhook via MCP: " ++ msg, true, c⟩
    | .ok texts =>
      match texts with
      | t :: _ => ⟨t, true, c⟩
      | [] => ⟨"✅ Webhook verificado (sem detalhes)", true, c⟩

/-! ## TicketMCPServer notification tools (mserver/mcp_server.py) -/

/-- What the outbound HTTP POST produced: a response status code, an
`httpx.TimeoutException`, or another (connection) error. -/
inductive HttpOutcome where
  | status (code : Nat)
  | timeout
  | connError (msg : String)

/-- Result of one server notification tool: the text returned to the MCP
caller and the JSON body POSTed to the webhook URL (`none` when no POST
was issued). -/
structure NotifyResult where
  message : String
  postedPayload : Option (List (String × String))
deriving DecidableEq, Repr

/-- `json.dumps(payload, indent=2)` for the fixed two-field payload of the
default notification (string escaping of the ticket number elided). -/
def payloadDumpIndent2 (tn : String) : String :=
  "\x7b\n  \"ticket_number\": \"" ++ tn ++ "\",\n  \"status\": \"done\"\n\x7d"

/-- The success message of `_send_ticket_notification` (lines 154-161). -/
def notifySuccessMessage (url tn : String) (code : Nat) : String :=
  "✅ **Webhook Enviado com Sucesso!**\n\n📌 Ticket: " ++ tn ++
    "\n📊 Status: done\n🌐 URL: " ++ url ++ "\n📡 HTTP Status: " ++ toString code ++
    "\n✉️ Payload: " ++ payloadDumpIndent2 tn ++ "\n"

/-- The warning message of `_send_ticket_notification` (lines 164-169). -/
def notifyWarningMessage (tn : String) (code : Nat) : String :=
  "⚠️ **Webhook Enviado com Aviso**\n\n📌 Ticket: " ++ tn ++
    "\n📡 HTTP Status: " ++ toString code ++
    "\n⚠️ O servidor retornou um código não esperado\n"

/-- `TicketMCPServer._send_ticket_notification` (mcp_server.py lines
122-184; renamed here): a falsy ticket_number is refused; otherwise the
payload is fixed to ticket_number plus status "done" and POSTed; 200/201
yield the success text, any other code the warning text, and
timeout/connection errors the caught failure texts. -/
def sendTicketNotificationTool (url : String) (tn : Option String)
    (h : HttpOutcome) : NotifyResult :=
  match tn with
  | none => ⟨"❌ Erro: ticket_number é obrigatório", none⟩
  | some t =>
    if t == "" then ⟨"❌ Erro: ticket_number é obrigatório", none⟩
    else
      let payload := [("ticket_number", t), ("status", "done")]
      match h with
      | .status code =>
        if code == 200 || code == 201 then ⟨notifySuccessMessage url t code, some payload⟩
        else ⟨notifyWarningMessage t code, some payload⟩
      | .timeout => ⟨"❌ Timeout ao enviar webhook para " ++ t, some payload⟩
      | .connError e => ⟨"❌ Erro ao enviar webhook: " ++ e, some payload⟩

/-- Python `{**a, **b}` for dicts with unique keys (as `json.loads`
yields): keys of `a` keep their position, with the value replaced when `b`
also binds the key; keys only in `b` are appended in order. -/
def dictUpdate (a b : List (String × JValue)) : List (String × JValue) :=
  (a.map (fun p =>
    match b.find? (fun q => q.1 == p.1) with
    | some q => q
    | none => p))
  ++ b.filter (fun q => !(a.any (fun p => p.1 == q.1)))

/-- The payload dict literal of `TicketMCPServer._send_custom_webhook`
(mcp_server.py lines 201-205): ticket_number and status first, then the
caller metadata splatted over them. -/
def customWebhookPayload (tn status : String)
    (metadata : List (String × JValue)) : List (String × JValue) :=
  dictUpdate [("ticket_number", .jstr tn), ("status", .jstr status)] metadata

/-! ## Concrete records and replies used as witnesses -/

/-- A pending sample record. -/
def sampleTicketPending : Ticket := ⟨"TKT-002", "pending", "Sistema fora do ar", "bob"⟩

/-- A solved sample record. -/
def sampleTicketSolved : Ticket := ⟨"TKT-003", "solved", "Erro de login", "carol"⟩

/-- A pending sample record whose status uses upper-case letters. -/
def sampleTicketUpperPending : Ticket := ⟨"TKT-004", "PENDING", "Lentidão no portal", "dave"⟩

/-- An LLM routing reply that is valid JSON with all logged keys present
but an empty agent_sequence. -/
def badRoutingReply : String :=
  "\x7b\"primary_agent\": \"SearchAgent\", \"reasoning\": \"busca\", " ++
    "\"requires_multiple_agents\": false, \"agent_sequence\": []\x7d"

/-- `json.loads` of `badRoutingReply`. -/
def badRoutingDecision : JValue :=
  .jobj [("primary_agent", .jstr "SearchAgent"),
         ("reasoning", .jstr "busca"),
         ("requires_multiple_agents", .jbool false),
         ("agent_sequence", .jarr [])]

/-- A `json.loads` behaviour that decodes exactly `badRoutingReply`. -/
def badLoads : String → Except Unit JValue :=
  fun s => if s == badRoutingReply then .ok badRoutingDecision else .error ()

/-! # Theorems -/

/-! ## Loop lemmas for the processor -/

/-- A store segment with no matching ticket passes through the loop
unchanged and sets no flag. -/
theorem processLoop_no_match (tn : String) (l : List Ticket)
    (h : ∀ u ∈ l, ticketMatches tn u = false) :
    processLoop tn l = .ok (l, false, false) := by
  induction l with
  | nil => rfl
  | cons u l ih =>
    have hu : ticketMatches tn u = false := h u (List.mem_cons_self u l)
    have hl : ∀ v ∈ l, ticketMatches tn v = false :=
      fun v hv => h v (List.mem_cons_of_mem u hv)
    simp [processLoop, hu, ih hl]

/-- If the first matching ticket is not pending, the loop early-returns
that ticket status. -/
theorem processLoop_refuses (tn : String) (pre post : List Ticket) (t : Ticket)
    (hpre : ∀ u ∈ pre, ticketMatches tn u = false)
    (ht : ticketMatches tn t = true)
    (hst : statusIsPending t = false) :
    processLoop tn (pre ++ t :: post) = .error t.status := by
  induction pre with
  | nil => simp [processLoop, ht, hst]
  | cons u pre ih =>
    have hu : ticketMatches tn u = false := hpre u (List.mem_cons_self u pre)
    have hl : ∀ v ∈ pre, ticketMatches tn v = false :=
      fun v hv => hpre v (List.mem_cons_of_mem u hv)
    simp [processLoop, hu, ih hl]

/-- If the only matching ticket is pending, the loop flips exactly that
record to solved and reports found and was-pending. -/
theorem processLoop_solves (tn : String) (pre post : List Ticket) (t : Ticket)
    (hpre : ∀ u ∈ pre, ticketMatches tn u = false)
    (hpost : ∀ u ∈ post, ticketMatches tn u = false)
    (ht : ticketMatches tn t = true)
    (hst : statusIsPending t = true) :
    processLoop tn (pre ++ t :: post) =
      .ok (pre ++ { t with status := "solved" } :: post, true, true) := by
  induction pre with
  | nil =>
    simp [processLoop, ht, hst, processLoop_no_match tn post hpost]
  | cons u pre ih =>
    have hu : ticketMatches tn u = false := hpre u (List.mem_cons_self u pre)
    have hl : ∀ v ∈ pre, ticketMatches tn v = false :=
      fun v hv => hpre v (List.mem_cons_of_mem u hv)
    simp [processLoop, hu, ih hl]

/-! ## Claim theorems -/

/-- C1: a `process_pending_ticket` call whose matched record (the first
case-insensitive match) has any status other than pending mutates nothing,
creates no backup, and returns a refusal text that states the record
current status verbatim. -/
theorem C1_process_nonpending_refusal (tn : String) (pre post : List Ticket) (t : Ticket)
    (hpre : ∀ u ∈ pre, ticketMatches tn u = false)
    (ht : ticketMatches tn t = true)
    (hst : statusIsPending t = false) :
    process_pending_ticket tn (pre ++ t :: post) =
      ⟨some (refusalMessage tn t.status), pre ++ t :: post, 0⟩ ∧
    ∃ a b, refusalMessage tn t.status = a ++ t.status ++ b := by
  refine ⟨?_, ?_⟩
  · simp [process_pending_ticket, processLoop_refuses tn pre post t hpre ht hst]
  · exact ⟨"⚠️ Ticket " ++ tn ++ " não pode ser processado. Status atual: ",
      ". Apenas tickets \x27pending\x27 podem ser processados.", rfl⟩

/-- Witness for C1 at a concrete solved record. -/
theorem C1_witness :
    process_pending_ticket "TKT-003" [sampleTicketSolved] =
      ⟨some (refusalMessage "TKT-003" "solved"), [sampleTicketSolved], 0⟩ ∧
    ∃ a b, refusalMessage "TKT-003" "solved" = a ++ "solved" ++ b :=
  C1_process_nonpending_refusal "TKT-003" [] [] sampleTicketSolved
    (by intro u hu; cases hu) (by decide) (by decide)

/-- C2: a `process_pending_ticket` call whose unique matched record is
pending creates exactly one backup and overwrites the store with only
that record changed, its status becoming solved, all other records
untouched. -/
theorem C2_process_pending_solves (tn : String) (pre post : List Ticket) (t : Ticket)
    (hpre : ∀ u ∈ pre, ticketMatches tn u = false)
    (hpost : ∀ u ∈ post, ticketMatches tn u = false)
    (ht : ticketMatches tn t = true)
    (hst : statusIsPending t = true) :
    process_pending_ticket tn (pre ++ t :: post) =
      ⟨some (processedMessage tn), pre ++ { t with status := "solved" } :: post, 1⟩ := by
  simp [process_pending_ticket, processLoop_solves tn pre post t hpre hpost ht hst]

/-- Witness for C2 at a concrete pending record between two others. -/
theorem C2_witness :
    process_pending_ticket "TKT-002" [sampleTicketSolved, sampleTicketPending] =
      ⟨some (processedMessage "TKT-002"),
        [sampleTicketSolved, { sampleTicketPending with status := "solved" }], 1⟩ :=
  C2_process_pending_solves "TKT-002" [sampleTicketSolved] [] sampleTicketPending
    (by decide) (by intro u hu; cases hu) (by decide) (by decide)

/-- C9: ticket lookup in both plugins compares lowercased ticket numbers,
so two queries with the same lowercasing behave identically on any store;
and the processor pending test also lowercases, so a matching record with
any casing of pending is processed to solved. -/
theorem C9_case_insensitive_matching :
    (∀ a b : String, pyLower a = pyLower b →
      ∀ store : List Ticket,
        findTicket a store = findTicket b store ∧
        processLoop a store = processLoop b store) ∧
    (∀ (tn : String) (t : Ticket), ticketMatches tn t = true →
      statusIsPending t = true →
      process_pending_ticket tn [t] =
        ⟨some (processedMessage tn), [{ t with status := "solved" }], 1⟩) := by
  constructor
  · intro a b hab store
    have hm : ticketMatches a = ticketMatches b := by
      funext t; simp [ticketMatches, hab]
    constructor
    · simp [findTicket, hm]
    · induction store with
      | nil => rfl
      | cons t ts ih => simp only [processLoop, hm, ih]
  · intro tn t ht hst
    have h := processLoop_solves tn [] [] t
      (by intro u hu; cases hu) (by intro u hu; cases hu) ht hst
    simp [process_pending_ticket, List.nil_append] at h
    simp [process_pending_ticket, h]

/-- Witness for C9: lower- and upper-case queries agree, and an
upper-case PENDING record is accepted and solved. -/
theorem C9_witness :
    (pyLower "tkt-004" = pyLower "TKT-004" ∧
      findTicket "tkt-004" [sampleTicketUpperPending] =
        findTicket "TKT-004" [sampleTicketUpperPending]) ∧
    (ticketMatches "tkt-004" sampleTicketUpperPending = true ∧
      statusIsPending sampleTicketUpperPending = true ∧
      process_pending_ticket "tkt-004" [sampleTicketUpperPending] =
        ⟨some (processedMessage "tkt-004"),
          [{ sampleTicketUpperPending with status := "solved" }], 1⟩) := by
  refine ⟨⟨by decide, ?_⟩, by decide, by decide, ?_⟩
  · exact ((C9_case_insensitive_matching.1 "tkt-004" "TKT-004" (by decide))
      [sampleTicketUpperPending]).1
  · exact C9_case_insensitive_matching.2 "tkt-004" sampleTicketUpperPending
      (by decide) (by decide)

/-- C3: each executor restricts its LLM call to exactly its own plugin,
and the four allowed tool sets are pairwise disjoint, so no executor can
see or invoke a tool of another handler.  -/
theorem C3_tool_scoping_disjoint :
    includedPlugins .search = ["TicketSearch"] ∧
    includedPlugins .process = ["TicketProcessor"] ∧
    includedPlugins .notify = ["TicketWebhookMCP"] ∧
    includedPlugins .dataMutation = ["DatabaseExecutor"] ∧
    (handlerIds.all (fun h =>
      (allowedTools h).all (fun t => (includedPlugins h).contains t.1))) = true ∧
    handlerIds.Pairwise (fun h h2 =>
      ((allowedTools h).all (fun t => !(allowedTools h2).contains t)) = true) := by
  refine ⟨rfl, rfl, rfl, rfl, by decide, by decide⟩

/-- C4: an exception during the routing LLM call, an empty reply, a reply
without a brace region, and a reply whose extracted region fails to
parse all make route_request return the fixed default plan, with no
exception escaping. -/
theorem C4_route_request_fallbacks (loads : String → Except Unit JValue) (t : String) :
    isDefaultPlan (route_request loads .failure) = true ∧
    isDefaultPlan (route_request loads .empty) = true ∧
    (hasJsonRegion (pyStrip t) = false →
      isDefaultPlan (route_request loads (.reply t)) = true) ∧
    (hasJsonRegion (pyStrip t) = true →
      loads (extractJsonRegion (pyStrip t)) = .error () →
      isDefaultPlan (route_request loads (.reply t)) = true) := by
  refine ⟨rfl, rfl, ?_, ?_⟩
  · intro h
    simp only [route_request, h, Bool.false_eq_true, if_false]
    rfl
  · intro h1 h2
    simp only [route_request, h1, if_true, h2]
    rfl

/-- Witness for C4: the four fallback situations at concrete inputs. -/
theorem C4_witness :
    isDefaultPlan (route_request badLoads .failure) = true ∧
    isDefaultPlan (route_request badLoads .empty) = true ∧
    isDefaultPlan (route_request badLoads (.reply "sem json")) = true ∧
    isDefaultPlan (route_request badLoads (.reply "ruído \x7binválido\x7d")) = true := by
  obtain ⟨h1, h2, h3, _⟩ := C4_route_request_fallbacks badLoads "sem json"
  obtain ⟨_, _, _, h4⟩ := C4_route_request_fallbacks badLoads "ruído \x7binválido\x7d"
  exact ⟨h1, h2, h3 (by decide), h4 (by decide) (by rfl)⟩

/-- C5 as stated is false: a decoded routing decision with all logged
keys present but an empty agent_sequence is returned exactly as decoded,
and it violates the RoutingPlan invariant. -/
theorem C5_counterexample :
    planInvariant (route_request badLoads (.reply badRoutingReply)) = false := by
  decide

/-- C5 amended: decisions produced by the fallback paths satisfy the
invariant; a successfully decoded decision is returned without
validation, exactly as decoded, so the invariant holds only when the
decoded reply already satisfies it. -/
theorem C5_amended_invariant (loads : String → Except Unit JValue) (t : String) :
    planInvariant (route_request loads .failure) = true ∧
    planInvariant (route_request loads .empty) = true ∧
    (hasJsonRegion (pyStrip t) = false →
      planInvariant (route_request loads (.reply t)) = true) ∧
    (hasJsonRegion (pyStrip t) = true →
      loads (extractJsonRegion (pyStrip t)) = .error () →
      planInvariant (route_request loads (.reply t)) = true) ∧
    (∀ d, hasJsonRegion (pyStrip t) = true →
      loads (extractJsonRegion (pyStrip t)) = .ok d →
      (jlookup d "primary_agent").isSome = true →
      (jlookup d "reasoning").isSome = true →
      (pyTruthy (jlookup d "requires_multiple_agents") = true →
        (jlookup d "agent_sequence").isSome = true) →
      route_request loads (.reply t) = d) := by
  refine ⟨rfl, rfl, ?_, ?_, ?_⟩
  · intro h
    simp only [route_request, h, Bool.false_eq_true, if_false]
    rfl
  · intro h1 h2
    simp only [route_request, h1, if_true, h2]
    rfl
  · intro d h1 h2 hp hr hseq
    obtain ⟨p, hp2⟩ := Option.isSome_iff_exists.mp hp
    obtain ⟨q, hr2⟩ := Option.isSome_iff_exists.mp hr
    rcases Bool.eq_false_or_eq_true (pyTruthy (jlookup d "requires_multiple_agents"))
      with hm | hm
    · obtain ⟨sq, hs2⟩ := Option.isSome_iff_exists.mp (hseq hm)
      simp only [route_request, h1, if_true, h2, hp2, hr2, hm, if_true, hs2]
    · simp only [route_request, h1, if_true, h2, hp2, hr2, hm, Bool.false_eq_true, if_false]

/-- Witness for C5 amended: a fallback satisfies the invariant, and the
decoded bad decision is returned exactly as decoded. -/
theorem C5_amended_witness :
    planInvariant (route_request badLoads .failure) = true ∧
    route_request badLoads (.reply badRoutingReply) = badRoutingDecision := by
  obtain ⟨h1, _, _, _, h5⟩ := C5_amended_invariant badLoads badRoutingReply
  exact ⟨h1, h5 badRoutingDecision (by decide) (by rfl) (by rfl) (by rfl)
    (fun hm => absurd hm (by decide))⟩

/-- C6 as stated is false: the Search executor has no exception handler,
so an exception from the LLM call propagates to the caller instead of
becoming a failure string. -/
theorem C6_counterexample :
    searchAgentExecute (.exn "connection reset") = .error "connection reset" := rfl

/-- C6 amended: only the DataMutation executor catches exceptions and
converts them into an error-marked failure string; the Search, Process
and Notify executors propagate exceptions from the LLM call to their
caller. -/
theorem C6_amended_exception_handling (msg : String) :
    llmInsertAgentExecute (.exn msg) = .ok ("❌ Erro ao processar: " ++ msg) ∧
    searchAgentExecute (.exn msg) = .error msg ∧
    processorAgentExecute (.exn msg) = .error msg ∧
    webhookAgentExecute (.exn msg) = .error msg :=
  ⟨rfl, rfl, rfl, rfl⟩

/-- C7: while disconnected every client tool method refuses with its
not-connected text without attempting the tool call, and a per-call
timeout while connected yields a textual timeout failure with the
session kept as it was. -/
theorem C7_transport_errors (loads : String → Except Unit JValue)
    (c : MCPTicketClient) (tn status metadata : String) (o : ToolCallOutcome) :
    (c.session = none →
      send_ticket_webhook c tn o =
        ⟨"❌ Erro: Cliente MCP não está conectado. Por favor, reinicie o sistema.", false, c⟩ ∧
      send_custom_ticket_webhook loads c tn status metadata o =
        ⟨"❌ Erro: Cliente MCP não está conectado", false, c⟩ ∧
      check_webhook_health c o =
        ⟨"❌ Erro: Cliente MCP não está conectado", false, c⟩) ∧
    (c.session = some () →
      send_ticket_webhook c tn .timeout =
        ⟨"❌ Timeout ao enviar webhook para " ++ tn, true, c⟩ ∧
      (∀ v, parseMetadata loads metadata = .ok v →
        send_custom_ticket_webhook loads c tn status metadata .timeout =
          ⟨"❌ Timeout ao enviar webhook customizado", true, c⟩) ∧
      check_webhook_health c .timeout =
        ⟨"❌ Timeout ao verificar webhook", true, c⟩) := by
  constructor
  · intro h
    refine ⟨?_, ?_, ?_⟩ <;>
      simp [send_ticket_webhook, send_custom_ticket_webhook, check_webhook_health, h]
  · intro h
    refine ⟨?_, ?_, ?_⟩
    · simp [send_ticket_webhook, h]
    · intro v hv
      simp [send_custom_ticket_webhook, h, hv]
    · simp [check_webhook_health, h]

/-- Witness for C7 at a disconnected and a connected client. -/
theorem C7_witness :
    send_ticket_webhook ⟨none⟩ "TKT-002" (.ok ["ok"]) =
      ⟨"❌ Erro: Cliente MCP não está conectado. Por favor, reinicie o sistema.", false, ⟨none⟩⟩ ∧
    check_webhook_health ⟨none⟩ (.ok ["ok"]) =
      ⟨"❌ Erro: Cliente MCP não está conectado", false, ⟨none⟩⟩ ∧
    send_ticket_webhook ⟨some ()⟩ "TKT-002" .timeout =
      ⟨"❌ Timeout ao enviar webhook para " ++ "TKT-002", true, ⟨some ()⟩⟩ ∧
    send_custom_ticket_webhook badLoads ⟨some ()⟩ "TKT-002" "done" "\x7b\x7d" .timeout =
      ⟨"❌ Timeout ao enviar webhook customizado", true, ⟨some ()⟩⟩ := by
  obtain ⟨hd, _⟩ :=
    C7_transport_errors badLoads ⟨none⟩ "TKT-002" "done" "\x7b\x7d" (.ok ["ok"])
  obtain ⟨_, hc⟩ :=
    C7_transport_errors badLoads ⟨some ()⟩ "TKT-002" "done" "\x7b\x7d" .timeout
  obtain ⟨hd1, _, hd3⟩ := hd rfl
  obtain ⟨hc1, hc2, _⟩ := hc rfl
  exact ⟨hd1, hd3, hc1, hc2 (.jobj []) (by rfl)⟩

/-- C8: the default notification POSTs exactly the JSON body holding the
ticket_number and the fixed status done; HTTP 200 and 201 yield the
success text, any other code the warning text, and timeout or connection
errors the failure texts. -/
theorem C8_default_notification (url tn e : String) (code : Nat) (h : ¬ tn = "") :
    (sendTicketNotificationTool url (some tn) (.status code)).postedPayload =
      some [("ticket_number", tn), ("status", "done")] ∧
    (sendTicketNotificationTool url (some tn) .timeout).postedPayload =
      some [("ticket_number", tn), ("status", "done")] ∧
    (sendTicketNotificationTool url (some tn) (.connError e)).postedPayload =
      some [("ticket_number", tn), ("status", "done")] ∧
    (code = 200 ∨ code = 201 →
      (sendTicketNotificationTool url (some tn) (.status code)).message =
        notifySuccessMessage url tn code) ∧
    (¬(code = 200 ∨ code = 201) →
      (sendTicketNotificationTool url (some tn) (.status code)).message =
        notifyWarningMessage tn code) ∧
    (sendTicketNotificationTool url (some tn) .timeout).message =
      "❌ Timeout ao enviar webhook para " ++ tn ∧
    (sendTicketNotificationTool url (some tn) (.connError e)).message =
      "❌ Erro ao enviar webhook: " ++ e := by
  have ht : (tn == "") = false := by
    simp only [beq_eq_false_iff_ne, ne_eq]
    exact h
  refine ⟨?_, ?_, ?_, ?_, ?_, ?_, ?_⟩
  · rcases Bool.eq_false_or_eq_true (code == 200 || code == 201) with hc | hc <;>
      simp [sendTicketNotificationTool, ht, hc]
  · simp [sendTicketNotificationTool, ht]
  · simp [sendTicketNotificationTool, ht]
  · intro hcode
    have hc : (code == 200 || code == 201) = true := by
      rcases hcode with h1 | h1 <;> simp [h1]
    simp [sendTicketNotificationTool, ht, hc]
  · intro hcode
    have hc : (code == 200 || code == 201) = false := by
      rcases not_or.mp hcode with ⟨h1, h2⟩
      simp [h1, h2]
    simp [sendTicketNotificationTool, ht, hc]
  · simp [sendTicketNotificationTool, ht]
  · simp [sendTicketNotificationTool, ht]

/-- Witness for C8 at the default URL with codes 200 and 404. -/
theorem C8_witness :
    (sendTicketNotificationTool "https://webhook.site/test" (some "TKT-002")
        (.status 200)).message =
      notifySuccessMessage "https://webhook.site/test" "TKT-002" 200 ∧
    (sendTicketNotificationTool "https://webhook.site/test" (some "TKT-002")
        (.status 404)).message =
      notifyWarningMessage "TKT-002" 404 ∧
    (sendTicketNotificationTool "https://webhook.site/test" (some "TKT-002")
        (.status 404)).postedPayload =
      some [("ticket_number", "TKT-002"), ("status", "done")] := by
  obtain ⟨_, _, _, hs, _, _, _⟩ :=
    C8_default_notification "https://webhook.site/test" "TKT-002" "x" 200 (by decide)
  obtain ⟨hp, _, _, _, hw, _, _⟩ :=
    C8_default_notification "https://webhook.site/test" "TKT-002" "x" 404 (by decide)
  exact ⟨hs (Or.inl rfl), hw (by decide), hp⟩

/-- C10: the caller metadata is splatted into the custom webhook payload
after the ticket_number and status fields, so a metadata entry named
ticket_number or status overrides the declared argument in the POSTed
body. -/
theorem C10_metadata_overrides (tn status : String)
    (metadata : List (String × JValue)) (q : String × JValue) :
    (metadata.find? (fun p => p.1 == "ticket_number") = some q →
      (customWebhookPayload tn status metadata).find?
        (fun p => p.1 == "ticket_number") = some q) ∧
    (metadata.find? (fun p => p.1 == "status") = some q →
      (customWebhookPayload tn status metadata).find?
        (fun p => p.1 == "status") = some q) := by
  constructor
  · intro h
    have hq : (q.1 == "ticket_number") = true := by simpa using List.find?_some h
    simp only [customWebhookPayload, dictUpdate, List.map_cons, List.map_nil,
      List.cons_append, List.nil_append]
    rw [show (metadata.find? fun r => r.1 == ("ticket_number", JValue.jstr tn).1)
      = some q from h]
    exact List.find?_cons_of_pos _ hq
  · intro h
    have hq : (q.1 == "status") = true := by simpa using List.find?_some h
    simp only [customWebhookPayload, dictUpdate, List.map_cons, List.map_nil,
      List.cons_append, List.nil_append]
    rw [show (metadata.find? fun r => r.1 == ("status", JValue.jstr status).1)
      = some q from h]
    rcases htk : List.find? (fun q => q.1 == "ticket_number") metadata with _ | q2
    · refine Eq.trans (List.find?_cons_of_neg _ ?_) (List.find?_cons_of_pos _ hq)
      simp [htk]
    · have hq2 : q2.1 = "ticket_number" := by simpa using List.find?_some htk
      refine Eq.trans (List.find?_cons_of_neg _ ?_) (List.find?_cons_of_pos _ hq)
      simp [htk, hq2]

/-- Witness for C10: metadata overriding both fields. -/
theorem C10_witness :
    (customWebhookPayload "TKT-002" "done"
        [("ticket_number", .jstr "TKT-999"), ("status", .jstr "cancelled")]).find?
      (fun p => p.1 == "ticket_number") = some ("ticket_number", .jstr "TKT-999") ∧
    (customWebhookPayload "TKT-002" "done"
        [("ticket_number", .jstr "TKT-999"), ("status", .jstr "cancelled")]).find?
      (fun p => p.1 == "status") = some ("status", .jstr "cancelled") := by
  refine ⟨?_, ?_⟩
  · exact (C10_metadata_overrides "TKT-002" "done"
      [("ticket_number", .jstr "TKT-999"), ("status", .jstr "cancelled")]
      ("ticket_number", .jstr "TKT-999")).1 (by rfl)
  · exact (C10_metadata_overrides "TKT-002" "done"
      [("ticket_number", .jstr "TKT-999"), ("status", .jstr "cancelled")]
      ("status", .jstr "cancelled")).2 (by rfl)

end TicketSystem
